import Mathlib

set_option autoImplicit false

/-!
Shallow embedding of the Yuan routing hub, src/apps/hosts/src/index.ts.

The hub keeps three process-wide maps keyed by public key (lines 44-46):
socket registry, signature of record, and terminal metadata. We model a
JS object / Map with string keys as an association list with unique keys,
machine sockets as Nat handles, and track the sockets on which close()
resp. terminate() has been called. The opaque signature scheme
(verifyMessage with the fixed empty challenge) is a parameter
verify : signature -> public_key -> Bool.
-/

namespace YuanHost

/-- Association list standing for a JS object or Map with string keys. -/
abbrev KVMap (α : Type) := List (String × α)

/-- Lookup of a key, as in JS map[k] / map.get(k). -/
def getKV {α : Type} (k : String) : KVMap α → Option α
  | [] => none
  | (k2, v) :: rest => if k2 = k then some v else getKV k rest

/-- Assignment map[k] = v: replace the value in place if the key is present,
append otherwise (JS objects and Maps keep insertion order on re-assignment). -/
def setKV {α : Type} (k : String) (v : α) : KVMap α → KVMap α
  | [] => [(k, v)]
  | (k2, v2) :: rest => if k2 = k then (k, v) :: rest else (k2, v2) :: setKV k v rest

/-- Deletion delete map[k] / map.delete(k): removes the key (a no-op when absent). -/
def delKV {α : Type} (k : String) : KVMap α → KVMap α
  | [] => []
  | (k2, v) :: rest => if k2 = k then delKV k rest else (k2, v) :: delKV k rest

/-- Terminal metadata (ITerminalInfo from the protocol package): the
self-reported id and display name; further fields are opaque to the hub. -/
structure ITerminalInfo where
  terminal_id : String
  name : String
  deriving DecidableEq, Repr

/-- The hub's whole mutable state: the three process-wide maps of
index.ts lines 44-46, plus the observable socket lifecycle events
(close() from line 203 and the graceful paths, terminate() from
lines 146 and 216). -/
structure HubState where
  mapPublicKeyToTerminalIdToSocket : KVMap (KVMap Nat)
  mapPublicKeyToSignature : KVMap String
  mapPublicKeyToTerminalInfos : KVMap (KVMap ITerminalInfo)
  closed : List Nat
  terminated : List Nat
  deriving DecidableEq, Repr

/-- Initial state at process start. -/
def emptyHub : HubState :=
  { mapPublicKeyToTerminalIdToSocket := []
    mapPublicKeyToSignature := []
    mapPublicKeyToTerminalInfos := []
    closed := []
    terminated := [] }

/-- The tenant's metadata map: the local terminalInfos of line 114
(created empty on first authenticated connection for the key). -/
def terminalInfosOf (st : HubState) (pk : String) : KVMap ITerminalInfo :=
  (getKV pk st.mapPublicKeyToTerminalInfos).getD []

/-- The tenant's socket registry: the local mapTerminalIdToSocket of line 196. -/
def mapTerminalIdToSocketOf (st : HubState) (pk : String) : KVMap Nat :=
  (getKV pk st.mapPublicKeyToTerminalIdToSocket).getD []

/-- Truthiness test for a JS query parameter: params.get returns null when
absent, and the guard !x of lines 97-99 also fails on the empty string. -/
def falsyParam (o : Option String) : Bool :=
  match o with
  | none => true
  | some s => s == ""

/-- Auth gate of lines 96-102: each parameter must be present (truthy) and
the signature must verify over the fixed empty challenge. An error models
the thrown Error caught at line 107. -/
def validateAuth (verify : String → String → Bool)
    (public_key terminal_id sig : Option String) : Except String Unit :=
  if falsyParam public_key then Except.error "public_key is required"
  else if falsyParam terminal_id then Except.error "terminal_id is required"
  else if falsyParam sig then Except.error "signature is required"
  else if !(verify (sig.getD "") (public_key.getD "")) then Except.error "signature is invalid"
  else Except.ok ()

/-- Outcome of an upgrade request: a 401 write plus socket.destroy
(lines 109-110), or a finished handleUpgrade registration. -/
inductive UpgradeResult where
  | rejected401
  | accepted
  deriving DecidableEq, Repr

/-- Success path of the upgrade handler, lines 106 and 114-205, in source
order: record the signature of record (line 106, overwriting any previous
one), lazily create the tenant's metadata map (line 114) and socket map
(line 196), then in the handleUpgrade callback close any socket already
registered under the terminal_id (line 203) and store the new one
(line 205). -/
def acceptUpgrade (st : HubState) (pk tid sig : String) (ws : Nat) :
    HubState × UpgradeResult :=
  let sigs := setKV pk sig st.mapPublicKeyToSignature
  let infosOuter :=
    match getKV pk st.mapPublicKeyToTerminalInfos with
    | some _ => st.mapPublicKeyToTerminalInfos
    | none => setKV pk [] st.mapPublicKeyToTerminalInfos
  let socketsOuter :=
    match getKV pk st.mapPublicKeyToTerminalIdToSocket with
    | some _ => st.mapPublicKeyToTerminalIdToSocket
    | none => setKV pk [] st.mapPublicKeyToTerminalIdToSocket
  let tmap := (getKV pk socketsOuter).getD []
  let closed2 :=
    match getKV tid tmap with
    | some old => old :: st.closed
    | none => st.closed
  ({ st with
      mapPublicKeyToSignature := sigs
      mapPublicKeyToTerminalInfos := infosOuter
      mapPublicKeyToTerminalIdToSocket := setKV pk (setKV tid ws tmap) socketsOuter
      closed := closed2 }, UpgradeResult.accepted)

/-- Whole upgrade handler, lines 88-220: on an auth error the request is
answered 401 and the transport destroyed with the state untouched
(lines 107-111); otherwise the success path runs. -/
def handleUpgrade (verify : String → String → Bool) (st : HubState)
    (public_key terminal_id sig : Option String) (ws : Nat) :
    HubState × UpgradeResult :=
  match validateAuth verify public_key terminal_id sig with
  | Except.error _ => (st, UpgradeResult.rejected401)
  | Except.ok _ =>
      acceptUpgrade st (public_key.getD "") (terminal_id.getD "") (sig.getD "") ws

/-- Cleanup body shared verbatim by the close-event handler (lines 213-218)
and the ping-failure tap of the phantom-elimination pipe (lines 142-149):
delete the terminal_id from the tenant's metadata, terminate the socket
currently registered under the terminal_id if any, and delete that entry. -/
def cleanupTerminal (st : HubState) (pk tid : String) : HubState :=
  let infosMap := terminalInfosOf st pk
  let tmap := mapTerminalIdToSocketOf st pk
  let terminated2 :=
    match getKV tid tmap with
    | some s => s :: st.terminated
    | none => st.terminated
  { st with
      mapPublicKeyToTerminalInfos :=
        setKV pk (delKV tid infosMap) st.mapPublicKeyToTerminalInfos
      mapPublicKeyToTerminalIdToSocket :=
        setKV pk (delKV tid tmap) st.mapPublicKeyToTerminalIdToSocket
      terminated := terminated2 }

/-- Result of one inbound frame on a registered connection. JSON.parse at
line 208 either throws on bytes that are not valid JSON (modelled by the
malformed constructor propagating an error — there is no try/catch in the
subscribe callback) or yields an object whose target_terminal_id field may
be absent. -/
inductive MessageData where
  | obj (target_terminal_id : Option String) (raw : String)
  | malformed (raw : String)
  deriving DecidableEq, Repr

/-- Message the uncaught JSON.parse exception carries. -/
def jsonSyntaxErrorMsg : String := "SyntaxError: Unexpected token in JSON"

/-- Frame-forwarding handler of lines 207-211 for a connection under tenant
pk: parse the frame, return (drop) unless the target id is in the tenant's
metadata, else send the original raw data to the socket currently
registered under the target id, if any. Delivery is reported as the pair
of socket handle and the raw bytes handed to send. -/
def handleMessage (st : HubState) (pk : String) (m : MessageData) :
    Except String (Option (Nat × String)) :=
  match m with
  | MessageData.malformed _ => Except.error jsonSyntaxErrorMsg
  | MessageData.obj target raw =>
    match target with
    | none => Except.ok none
    | some tgt =>
      if (getKV tgt (terminalInfosOf st pk)).isSome then
        Except.ok ((getKV tgt (mapTerminalIdToSocketOf st pk)).map (fun s => (s, raw)))
      else
        Except.ok none

/-- UpdateTerminalInfo service handler, lines 162-166: upsert the
self-reported metadata under its terminal_id (and republish it on the
tenant's TerminalInfo channel, not tracked here). -/
def updateTerminalInfo (st : HubState) (pk : String) (req : ITerminalInfo) : HubState :=
  { st with
      mapPublicKeyToTerminalInfos :=
        setKV pk (setKV req.terminal_id req (terminalInfosOf st pk))
          st.mapPublicKeyToTerminalInfos }

/-- ListTerminals service, lines 127-129 and 160: the values of the
tenant's metadata map. -/
def listTerminals (st : HubState) (pk : String) : List ITerminalInfo :=
  (terminalInfosOf st pk).map Prod.snd

/-- ListHost admin service, lines 179-190: Object.entries of the
signature-of-record map. -/
def listHost (st : HubState) : List (String × String) :=
  st.mapPublicKeyToSignature

/-- Rxjs retry semantics for the probe pipeline of lines 138-141:
request('Ping').pipe(last(), timeout(5000), retry(n)) succeeds when some
subscription among the initial one and the up-to-n resubscriptions
succeeds; attempt i tells whether the i-th subscription succeeds. -/
def probeSucceeds (attempt : Nat → Bool) (retryCount : Nat) : Bool :=
  (List.range (retryCount + 1)).any attempt

/-- Handling of one probed terminal in a sweep, lines 137-151: the source
uses retry(3), so the probe is given the initial attempt plus three
retries; only when all of these fail does the tap error handler evict the
terminal. -/
def sweepStep (responds : String → Nat → Bool) (pk : String)
    (st : HubState) (tid : String) : HubState :=
  if probeSucceeds (responds tid) 3 then st else cleanupTerminal st pk tid

/-- One phantom-elimination sweep for tenant pk, lines 135-156: probe every
terminal_id currently in the tenant's metadata and evict those whose probe
failed all attempts. responds gives each terminal's behaviour per attempt
index. -/
def runSweep (st : HubState) (pk : String) (responds : String → Nat → Bool) : HubState :=
  ((terminalInfosOf st pk).map Prod.fst).foldl (sweepStep responds pk) st

/-- Signature verifier that accepts everything; stands for a run in which
all presented signatures are valid for their keys. -/
def verifyAlways : String → String → Bool := fun _ _ => true

/-- Reconnection race scenario: terminal t1 connects under key K on socket 1. -/
def c1s1 : HubState :=
  (handleUpgrade verifyAlways emptyHub (some "K") (some "t1") (some "sig") 1).1

/-- Then t1 reports its metadata through UpdateTerminalInfo. -/
def c1s2 : HubState := updateTerminalInfo c1s1 "K" { terminal_id := "t1", name := "Alpha" }

/-- Then a second connection registers under the same key and terminal_id on
socket 2; the handler closes socket 1 and stores socket 2. -/
def c1s3 : HubState :=
  (handleUpgrade verifyAlways c1s2 (some "K") (some "t1") (some "sig") 2).1

/-- Then the close event of the superseded socket 1 fires, running the
cleanup handler captured with (K, t1). -/
def c1s4 : HubState := cleanupTerminal c1s3 "K" "t1"

/-- Probe behaviour that fails the first three attempts and succeeds on the
fourth (attempt index 3). -/
def respondsLate : String → Nat → Bool := fun _ i => i == 3

/-- Tenant K with one known terminal t1, for the sweep counterexample. -/
def c3st : HubState := updateTerminalInfo emptyHub "K" { terminal_id := "t1", name := "A" }

/-- Two successive authenticated connections under the same key presenting
different valid signatures. -/
def c6s1 : HubState :=
  (handleUpgrade verifyAlways emptyHub (some "K") (some "t1") (some "sigA") 1).1

/-- Second connection for the signature-of-record scenario. -/
def c6s2 : HubState :=
  (handleUpgrade verifyAlways c6s1 (some "K") (some "t2") (some "sigB") 2).1

/-- Tenant K with terminal t2 registered (socket 7) and known in metadata. -/
def c4st : HubState :=
  { mapPublicKeyToTerminalIdToSocket := [("K", [("t2", 7)])]
    mapPublicKeyToSignature := [("K", "s")]
    mapPublicKeyToTerminalInfos := [("K", [("t2", { terminal_id := "t2", name := "B" })])]
    closed := []
    terminated := [] }

/-- Two tenants: t9 exists only under key B (socket 9); tenant A has t1. -/
def c5st : HubState :=
  { mapPublicKeyToTerminalIdToSocket := [("A", [("t1", 1)]), ("B", [("t9", 9)])]
    mapPublicKeyToSignature := [("A", "sa"), ("B", "sb")]
    mapPublicKeyToTerminalInfos :=
      [("A", [("t1", { terminal_id := "t1", name := "a1" })]),
       ("B", [("t9", { terminal_id := "t9", name := "b9" })])]
    closed := []
    terminated := [] }

/-- Tenant K where t3 has a registered socket 5 but no metadata entry
(connected, never called UpdateTerminalInfo). -/
def c9st : HubState :=
  { mapPublicKeyToTerminalIdToSocket := [("K", [("t3", 5)])]
    mapPublicKeyToSignature := [("K", "s")]
    mapPublicKeyToTerminalInfos := [("K", [])]
    closed := []
    terminated := [] }

section KVLemmas

variable {α : Type}

theorem getKV_setKV_self (k : String) (v : α) (m : KVMap α) :
    getKV k (setKV k v m) = some v := by
  induction m with
  | nil => simp [setKV, getKV]
  | cons e rest ih =>
      obtain ⟨k2, v2⟩ := e
      by_cases h : k2 = k
      · simp [setKV, h, getKV]
      · simp [setKV, h, getKV, ih]

theorem getKV_setKV_ne (k k2 : String) (v : α) (m : KVMap α) (h : k2 ≠ k) :
    getKV k (setKV k2 v m) = getKV k m := by
  induction m with
  | nil => simp [setKV, getKV, h]
  | cons e rest ih =>
      obtain ⟨k3, v3⟩ := e
      by_cases h3 : k3 = k2
      · simp [setKV, h3, getKV, h]
      · simp [setKV, h3, getKV, ih]

theorem getKV_delKV_self (k : String) (m : KVMap α) :
    getKV k (delKV k m) = none := by
  induction m with
  | nil => simp [delKV, getKV]
  | cons e rest ih =>
      obtain ⟨k2, v2⟩ := e
      by_cases h : k2 = k
      · simpa [delKV, h, getKV] using ih
      · simpa [delKV, h, getKV] using ih

theorem getKV_delKV_ne (k k2 : String) (m : KVMap α) (h : k2 ≠ k) :
    getKV k (delKV k2 m) = getKV k m := by
  induction m with
  | nil => simp [delKV, getKV]
  | cons e rest ih =>
      obtain ⟨k3, v3⟩ := e
      by_cases h3 : k3 = k2
      · subst h3
        simpa [delKV, getKV, h] using ih
      · by_cases hk : k3 = k
        · subst hk
          simp [delKV, getKV, h3, Ne.symm h]
        · simpa [delKV, h3, getKV, hk] using ih

theorem delKV_delKV (k : String) (m : KVMap α) :
    delKV k (delKV k m) = delKV k m := by
  induction m with
  | nil => simp [delKV]
  | cons e rest ih =>
      obtain ⟨k2, v2⟩ := e
      by_cases h : k2 = k
      · simpa [delKV, h] using ih
      · simp [delKV, h, ih]

theorem setKV_setKV_self (k : String) (v1 v2 : α) (m : KVMap α) :
    setKV k v2 (setKV k v1 m) = setKV k v2 m := by
  induction m with
  | nil => simp [setKV]
  | cons e rest ih =>
      obtain ⟨k2, w⟩ := e
      by_cases h : k2 = k
      · simp [setKV, h]
      · simp [setKV, h, ih]

end KVLemmas

theorem validateAuth_ok_iff (verify : String → String → Bool)
    (pk tid sig : Option String) :
    validateAuth verify pk tid sig = Except.ok () ↔
      (falsyParam pk = false ∧ falsyParam tid = false ∧ falsyParam sig = false ∧
       verify (sig.getD "") (pk.getD "") = true) := by
  unfold validateAuth
  split_ifs with h1 h2 h3 h4 <;> simp_all

theorem probeSucceeds_three (a : Nat → Bool) :
    probeSucceeds a 3 = (a 0 || a 1 || a 2 || a 3) := by
  have hr : List.range 4 = [0, 1, 2, 3] := by decide
  simp [probeSucceeds, hr, Bool.or_assoc]

theorem terminalInfosOf_cleanupTerminal (st : HubState) (pk tid : String) :
    terminalInfosOf (cleanupTerminal st pk tid) pk = delKV tid (terminalInfosOf st pk) := by
  simp [cleanupTerminal, terminalInfosOf, getKV_setKV_self]

theorem mapTerminalIdToSocketOf_cleanupTerminal (st : HubState) (pk tid : String) :
    mapTerminalIdToSocketOf (cleanupTerminal st pk tid) pk =
      delKV tid (mapTerminalIdToSocketOf st pk) := by
  simp [cleanupTerminal, mapTerminalIdToSocketOf, getKV_setKV_self]

theorem sweepStep_get_ne (responds : String → Nat → Bool) (pk tid tid2 : String)
    (st : HubState) (h : tid2 ≠ tid) :
    getKV tid (terminalInfosOf (sweepStep responds pk st tid2) pk) =
      getKV tid (terminalInfosOf st pk) := by
  unfold sweepStep
  split
  · rfl
  · rw [terminalInfosOf_cleanupTerminal, getKV_delKV_ne _ _ _ h]

theorem sweepStep_get_none (responds : String → Nat → Bool) (pk tid tid2 : String)
    (st : HubState) (h : getKV tid (terminalInfosOf st pk) = none) :
    getKV tid (terminalInfosOf (sweepStep responds pk st tid2) pk) = none := by
  by_cases he : tid2 = tid
  · subst he
    unfold sweepStep
    split
    · exact h
    · rw [terminalInfosOf_cleanupTerminal, getKV_delKV_self]
  · rw [sweepStep_get_ne responds pk tid tid2 st he]
    exact h

theorem foldl_sweepStep_not_mem (responds : String → Nat → Bool) (pk tid : String)
    (l : List String) (st : HubState) (h : tid ∉ l) :
    getKV tid (terminalInfosOf (l.foldl (sweepStep responds pk) st) pk) =
      getKV tid (terminalInfosOf st pk) := by
  induction l generalizing st with
  | nil => rfl
  | cons t rest ih =>
      have h1 : t ≠ tid := fun he => h (he ▸ List.mem_cons_self t rest)
      have h2 : tid ∉ rest := fun hm => h (List.mem_cons_of_mem t hm)
      simp only [List.foldl_cons]
      rw [ih _ h2, sweepStep_get_ne responds pk tid t st h1]

theorem foldl_sweepStep_none (responds : String → Nat → Bool) (pk tid : String)
    (l : List String) (st : HubState)
    (h : getKV tid (terminalInfosOf st pk) = none) :
    getKV tid (terminalInfosOf (l.foldl (sweepStep responds pk) st) pk) = none := by
  induction l generalizing st with
  | nil => exact h
  | cons t rest ih =>
      simp only [List.foldl_cons]
      exact ih _ (sweepStep_get_none responds pk tid t st h)

theorem foldl_sweepStep_mem (responds : String → Nat → Bool) (pk tid : String)
    (l : List String) (st : HubState) (hnd : l.Nodup) (hmem : tid ∈ l) :
    getKV tid (terminalInfosOf (l.foldl (sweepStep responds pk) st) pk) =
      (if probeSucceeds (responds tid) 3 then getKV tid (terminalInfosOf st pk) else none) := by
  induction l generalizing st with
  | nil => cases hmem
  | cons t rest ih =>
      simp only [List.foldl_cons]
      rcases List.mem_cons.mp hmem with he | hm
      · subst he
        have hrest : tid ∉ rest := (List.nodup_cons.mp hnd).1
        rw [foldl_sweepStep_not_mem responds pk tid rest _ hrest]
        unfold sweepStep
        split
        · rename_i hp
          simp [hp]
        · rw [terminalInfosOf_cleanupTerminal, getKV_delKV_self]
      · have hnd2 := (List.nodup_cons.mp hnd).2
        have ht : t ≠ tid := fun he2 => (List.nodup_cons.mp hnd).1 (he2 ▸ hm)
        rw [ih (sweepStep responds pk st t) hnd2 hm,
          sweepStep_get_ne responds pk tid t st ht]

/-- C1: after t1 connects on socket 1, reports metadata, and reconnects on
socket 2, the handler does close socket 1 and store socket 2 with one t1
metadata entry; but when the superseded socket's close event then fires,
the cleanup handler of lines 213-218 (keyed only by terminal_id) deletes
the new registration: ListTerminals shows no t1 entry, the socket map has
no t1 entry, and the surviving socket 2 has been terminated — contradicting
the claim that exactly one (the newest) socket survives the old socket's
close event. -/
theorem stale_close_event_destroys_new_registration :
    c1s3.closed = [1] ∧
    getKV "t1" (mapTerminalIdToSocketOf c1s3 "K") = some 2 ∧
    listTerminals c1s3 "K" = [{ terminal_id := "t1", name := "Alpha" }] ∧
    listTerminals c1s4 "K" = [] ∧
    getKV "t1" (mapTerminalIdToSocketOf c1s4 "K") = none ∧
    c1s4.terminated = [2] :=
  ⟨rfl, rfl, rfl, rfl, rfl, rfl⟩

/-- C2: whenever public_key, terminal_id or signature is missing (or empty),
or the signature fails to verify over the fixed empty challenge, the
upgrade handler answers 401 and destroys the transport with the hub state
returned exactly as it was: no registry map, including the
signature-of-record map, is touched. -/
theorem auth_failure_rejects_and_preserves_state
    (verify : String → String → Bool) (st : HubState)
    (public_key terminal_id sig : Option String) (ws : Nat)
    (h : falsyParam public_key = true ∨ falsyParam terminal_id = true ∨
         falsyParam sig = true ∨ verify (sig.getD "") (public_key.getD "") = false) :
    handleUpgrade verify st public_key terminal_id sig ws =
      (st, UpgradeResult.rejected401) := by
  cases hv : validateAuth verify public_key terminal_id sig with
  | error e => simp [handleUpgrade, hv]
  | ok u =>
      cases u
      rw [validateAuth_ok_iff] at hv
      rcases hv with ⟨h1, h2, h3, h4⟩
      rcases h with h | h | h | h <;> simp_all

/-- C2 witness: a connection attempt whose signature fails verification is
rejected with the state unchanged. -/
theorem auth_failure_rejects_and_preserves_state_witness :
    handleUpgrade (fun _ _ => false) emptyHub (some "K") (some "t1") (some "s") 1 =
      (emptyHub, UpgradeResult.rejected401) :=
  auth_failure_rejects_and_preserves_state (fun _ _ => false) emptyHub
    (some "K") (some "t1") (some "s") 1 (Or.inr (Or.inr (Or.inr rfl)))

/-- C3 counterexample: a terminal whose probe fails the first three attempts
(indices 0, 1, 2) is, per the claim, declared dead after exactly 3 failed
attempts and absent from the next ListTerminals; but the source uses rxjs
retry(3) — an initial subscription plus up to three resubscriptions — so
the fourth attempt succeeds and the terminal is still listed after the
sweep. -/
theorem sweep_three_failed_attempts_still_listed :
    respondsLate "t1" 0 = false ∧ respondsLate "t1" 1 = false ∧
    respondsLate "t1" 2 = false ∧
    listTerminals (runSweep c3st "K" respondsLate) "K" =
      [{ terminal_id := "t1", name := "A" }] :=
  ⟨rfl, rfl, rfl, rfl⟩

/-- C3 amended: for every terminal_id known in the tenant's metadata (keys
unique, as JS Maps guarantee), one sweep evicts the terminal exactly when
all four probe attempts — the initial one plus the three retries of
retry(3) — fail; a terminal that responded to at least one of the four
attempts keeps its metadata entry unchanged. -/
theorem sweep_evicts_iff_all_four_attempts_fail (st : HubState) (pk tid : String)
    (responds : String → Nat → Bool)
    (hnd : ((terminalInfosOf st pk).map Prod.fst).Nodup)
    (hmem : tid ∈ (terminalInfosOf st pk).map Prod.fst) :
    getKV tid (terminalInfosOf (runSweep st pk responds) pk) =
      (if responds tid 0 || responds tid 1 || responds tid 2 || responds tid 3
       then getKV tid (terminalInfosOf st pk)
       else none) := by
  have h := foldl_sweepStep_mem responds pk tid
    ((terminalInfosOf st pk).map Prod.fst) st hnd hmem
  rw [probeSucceeds_three] at h
  exact h

/-- C3 witness: a terminal failing all four attempts is gone from the
tenant's metadata after the sweep. -/
theorem sweep_evicts_iff_all_four_attempts_fail_witness :
    getKV "t2" (terminalInfosOf (runSweep c4st "K" (fun _ _ => false)) "K") = none := by
  have h := sweep_evicts_iff_all_four_attempts_fail c4st "K" "t2" (fun _ _ => false)
    (by decide) (by decide)
  simpa using h

/-- C4: for a parsed inbound frame under tenant pk, the router returns
without delivery and without error when the target id is absent from the
tenant's metadata, and otherwise hands the original raw bytes, unmodified,
to the socket currently registered under the target id. -/
theorem router_drops_unknown_target_and_forwards_raw (st : HubState)
    (pk tgt raw : String) :
    (getKV tgt (terminalInfosOf st pk) = none →
      handleMessage st pk (MessageData.obj (some tgt) raw) = Except.ok none) ∧
    (getKV tgt (terminalInfosOf st pk) ≠ none →
      handleMessage st pk (MessageData.obj (some tgt) raw) =
        Except.ok ((getKV tgt (mapTerminalIdToSocketOf st pk)).map (fun s => (s, raw)))) := by
  constructor
  · intro h
    simp [handleMessage, h]
  · intro h
    obtain ⟨v, hv⟩ := Option.ne_none_iff_exists'.mp h
    simp [handleMessage, hv]

/-- C4 witness: under tenant K an unknown target is silently dropped, and a
known target t2 receives exactly the original payload on its socket 7. -/
theorem router_drops_unknown_target_and_forwards_raw_witness :
    handleMessage c4st "K" (MessageData.obj (some "tX") "PAYLOAD") = Except.ok none ∧
    handleMessage c4st "K" (MessageData.obj (some "t2") "PAYLOAD") =
      Except.ok (some (7, "PAYLOAD")) := by
  constructor
  · exact (router_drops_unknown_target_and_forwards_raw c4st "K" "tX" "PAYLOAD").1 rfl
  · have h := (router_drops_unknown_target_and_forwards_raw c4st "K" "t2" "PAYLOAD").2
      (by decide)
    rw [h]
    rfl

/-- C5: routing and observation are tenant-partitioned: a frame sent under
key A to a target id that has metadata only under key B is never delivered
(the lookup runs against A's maps alone), and mutations of B's registry —
an UpdateTerminalInfo upsert or a terminal cleanup under B — leave A's
ListTerminals snapshot and A's socket registry untouched. -/
theorem routing_and_registry_tenant_isolated (st : HubState)
    (pkA pkB tgt raw : String) (i : ITerminalInfo)
    (hAB : pkA ≠ pkB)
    (hB : getKV tgt (terminalInfosOf st pkB) ≠ none)
    (hA : getKV tgt (terminalInfosOf st pkA) = none) :
    handleMessage st pkA (MessageData.obj (some tgt) raw) = Except.ok none ∧
    listTerminals (updateTerminalInfo st pkB i) pkA = listTerminals st pkA ∧
    mapTerminalIdToSocketOf (updateTerminalInfo st pkB i) pkA =
      mapTerminalIdToSocketOf st pkA ∧
    listTerminals (cleanupTerminal st pkB tgt) pkA = listTerminals st pkA ∧
    mapTerminalIdToSocketOf (cleanupTerminal st pkB tgt) pkA =
      mapTerminalIdToSocketOf st pkA := by
  refine ⟨?_, ?_, ?_, ?_, ?_⟩
  · simp [handleMessage, hA]
  · simp [listTerminals, terminalInfosOf, updateTerminalInfo,
      getKV_setKV_ne _ _ _ _ (Ne.symm hAB)]
  · simp [mapTerminalIdToSocketOf, updateTerminalInfo]
  · simp [listTerminals, terminalInfosOf, cleanupTerminal,
      getKV_setKV_ne _ _ _ _ (Ne.symm hAB)]
  · simp [mapTerminalIdToSocketOf, cleanupTerminal,
      getKV_setKV_ne _ _ _ _ (Ne.symm hAB)]

/-- C5 witness: t9 exists only under tenant B, so a frame from tenant A
addressed to t9 is not delivered. -/
theorem routing_and_registry_tenant_isolated_witness :
    handleMessage c5st "A" (MessageData.obj (some "t9") "RAW") = Except.ok none :=
  (routing_and_registry_tenant_isolated c5st "A" "B" "t9" "RAW"
    { terminal_id := "tX", name := "x" } (by decide) (by decide) (by decide)).1

/-- C6 counterexample: two successive authenticated connections under key K
present distinct valid signatures sigA then sigB; the retained
signature-of-record served by ListHost is sigB, the one of the most recent
connection, not the first one as the claim states. -/
theorem signature_of_record_not_first_connection :
    (handleUpgrade verifyAlways emptyHub (some "K") (some "t1") (some "sigA") 1).2 =
      UpgradeResult.accepted ∧
    (handleUpgrade verifyAlways c6s1 (some "K") (some "t2") (some "sigB") 2).2 =
      UpgradeResult.accepted ∧
    getKV "K" (listHost c6s2) = some "sigB" ∧ "sigB" ≠ "sigA" := by
  refine ⟨rfl, rfl, rfl, by decide⟩

/-- C6 amended: the tenant's signature-of-record retained for ListHost is
the signature presented by the most recent successfully authenticated
connection under that public key — line 106 overwrites it on every
successful auth. -/
theorem signature_of_record_is_most_recent (verify : String → String → Bool)
    (st st2 : HubState) (public_key terminal_id sig : Option String) (ws : Nat)
    (h : handleUpgrade verify st public_key terminal_id sig ws =
      (st2, UpgradeResult.accepted)) :
    getKV (public_key.getD "") (listHost st2) = some (sig.getD "") := by
  unfold handleUpgrade at h
  cases hv : validateAuth verify public_key terminal_id sig with
  | error e =>
      rw [hv] at h
      simp at h
  | ok u =>
      cases u
      rw [hv] at h
      have h1 := congrArg Prod.fst h
      simp only [acceptUpgrade] at h1
      rw [← h1]
      simp [listHost, getKV_setKV_self]

/-- C6 witness: after the second authenticated connection of the scenario,
the record served for K is that connection's signature. -/
theorem signature_of_record_is_most_recent_witness :
    getKV "K" (listHost c6s2) = some "sigB" :=
  signature_of_record_is_most_recent verifyAlways c6s1 c6s2
    (some "K") (some "t2") (some "sigB") 2 rfl

/-- C7: a successful probe leaves the state exactly unchanged; a declared
failure performs precisely the eviction of lines 145-147: the terminal's
metadata entry and socket entry vanish, its socket (when present) is
terminated, and everything else — other terminal ids of the tenant, all
other tenants' maps, the signature map and the closed list — is unchanged. -/
theorem probe_outcome_exact_state_changes (st : HubState) (pk tid : String)
    (responds : String → Nat → Bool) :
    (probeSucceeds (responds tid) 3 = true → sweepStep responds pk st tid = st) ∧
    (probeSucceeds (responds tid) 3 = false →
      sweepStep responds pk st tid = cleanupTerminal st pk tid) ∧
    getKV tid (terminalInfosOf (cleanupTerminal st pk tid) pk) = none ∧
    getKV tid (mapTerminalIdToSocketOf (cleanupTerminal st pk tid) pk) = none ∧
    (∀ s, getKV tid (mapTerminalIdToSocketOf st pk) = some s →
      (cleanupTerminal st pk tid).terminated = s :: st.terminated) ∧
    (getKV tid (mapTerminalIdToSocketOf st pk) = none →
      (cleanupTerminal st pk tid).terminated = st.terminated) ∧
    (∀ tid2, tid2 ≠ tid →
      getKV tid2 (terminalInfosOf (cleanupTerminal st pk tid) pk) =
        getKV tid2 (terminalInfosOf st pk) ∧
      getKV tid2 (mapTerminalIdToSocketOf (cleanupTerminal st pk tid) pk) =
        getKV tid2 (mapTerminalIdToSocketOf st pk)) ∧
    (∀ pk2, pk2 ≠ pk →
      getKV pk2 (cleanupTerminal st pk tid).mapPublicKeyToTerminalInfos =
        getKV pk2 st.mapPublicKeyToTerminalInfos ∧
      getKV pk2 (cleanupTerminal st pk tid).mapPublicKeyToTerminalIdToSocket =
        getKV pk2 st.mapPublicKeyToTerminalIdToSocket) ∧
    (cleanupTerminal st pk tid).mapPublicKeyToSignature =
      st.mapPublicKeyToSignature ∧
    (cleanupTerminal st pk tid).closed = st.closed := by
  refine ⟨?_, ?_, ?_, ?_, ?_, ?_, ?_, ?_, ?_, ?_⟩
  · intro hp
    simp [sweepStep, hp]
  · intro hp
    simp [sweepStep, hp]
  · rw [terminalInfosOf_cleanupTerminal, getKV_delKV_self]
  · rw [mapTerminalIdToSocketOf_cleanupTerminal, getKV_delKV_self]
  · intro s hs
    simp [cleanupTerminal, hs]
  · intro hs
    simp [cleanupTerminal, hs]
  · intro tid2 h2
    constructor
    · rw [terminalInfosOf_cleanupTerminal, getKV_delKV_ne _ _ _ (Ne.symm h2)]
    · rw [mapTerminalIdToSocketOf_cleanupTerminal, getKV_delKV_ne _ _ _ (Ne.symm h2)]
  · intro pk2 h2
    constructor
    · simp [cleanupTerminal, getKV_setKV_ne _ _ _ _ (Ne.symm h2)]
    · simp [cleanupTerminal, getKV_setKV_ne _ _ _ _ (Ne.symm h2)]
  · simp [cleanupTerminal]
  · simp [cleanupTerminal]

/-- C7 witness: with one known terminal t1, a probe that succeeds on some
attempt changes nothing, and a probe failing every attempt reduces the
sweep step to the eviction cleanup. -/
theorem probe_outcome_exact_state_changes_witness :
    sweepStep respondsLate "K" c3st "t1" = c3st ∧
    sweepStep (fun _ _ => false) "K" c3st "t1" = cleanupTerminal c3st "K" "t1" := by
  constructor
  · exact (probe_outcome_exact_state_changes c3st "K" "t1" respondsLate).1 rfl
  · exact (probe_outcome_exact_state_changes c3st "K" "t1" (fun _ _ => false)).2.1 rfl

/-- C8: the socket-close cleanup removes the socket entry and the metadata
entry together, and running it twice for the same tenant and terminal_id
yields a state equal to running it once — the second run finds nothing to
delete or terminate and raises no error (it is a total function). -/
theorem unregister_removes_both_and_is_idempotent (st : HubState) (pk tid : String) :
    getKV tid (terminalInfosOf (cleanupTerminal st pk tid) pk) = none ∧
    getKV tid (mapTerminalIdToSocketOf (cleanupTerminal st pk tid) pk) = none ∧
    cleanupTerminal (cleanupTerminal st pk tid) pk tid = cleanupTerminal st pk tid := by
  refine ⟨?_, ?_, ?_⟩
  · rw [terminalInfosOf_cleanupTerminal, getKV_delKV_self]
  · rw [mapTerminalIdToSocketOf_cleanupTerminal, getKV_delKV_self]
  · show cleanupTerminal (cleanupTerminal st pk tid) pk tid = cleanupTerminal st pk tid
    have hi := terminalInfosOf_cleanupTerminal st pk tid
    have hs := mapTerminalIdToSocketOf_cleanupTerminal st pk tid
    simp [cleanupTerminal, hi, hs, getKV_delKV_self, delKV_delKV, setKV_setKV_self,
      terminalInfosOf, mapTerminalIdToSocketOf, getKV_setKV_self]

/-- C9: a terminal whose socket is registered in the connection map but that
has no entry in the tenant's metadata receives no forwarded frames: the
terminalInfos.has guard of line 209 makes routability require a metadata
entry, socket registration alone is insufficient. -/
theorem registered_socket_without_metadata_gets_no_frames (st : HubState)
    (pk tgt raw : String) (s : Nat)
    (hsock : getKV tgt (mapTerminalIdToSocketOf st pk) = some s)
    (hinfo : getKV tgt (terminalInfosOf st pk) = none) :
    handleMessage st pk (MessageData.obj (some tgt) raw) = Except.ok none := by
  simp [handleMessage, hinfo]

/-- C9 witness: t3 holds socket 5 under K but never reported metadata, so a
frame addressed to t3 is dropped. -/
theorem registered_socket_without_metadata_gets_no_frames_witness :
    handleMessage c9st "K" (MessageData.obj (some "t3") "RAW") = Except.ok none :=
  registered_socket_without_metadata_gets_no_frames c9st "K" "t3" "RAW" 5
    (by decide) (by decide)

/-- C10: the forwarding subscriber parses each frame with an unguarded
JSON.parse, so any inbound bytes that are not valid JSON make the handler
propagate the parse exception instead of returning a silent drop: frame
handling is not total over arbitrary byte input. -/
theorem invalid_json_frame_throws (st : HubState) (pk raw : String) :
    handleMessage st pk (MessageData.malformed raw) =
      Except.error jsonSyntaxErrorMsg :=
  rfl

end YuanHost
